import Mathlib

/-!
Shallow embedding of the weekly-summary cron job
(`apps/web/app/api/cron/weekly_summary/route.ts`) and proofs about it.

Database entities carry the full column set; the shapes returned by
`getProducts` mirror the Prisma `select` projections, so fields the query
does not select are absent (`Option` fields set to `none`, matching the
JavaScript value `undefined`). Numbers that flow through JavaScript
division are modelled by `JsNum`, which represents a finite value as an
exact rational and keeps `NaN` / `Infinity` explicit. Dates are modelled
as integer milliseconds. Email sending is modelled by collecting the
issued send operations in a list; a send outcome function stands for the
eventual resolution or rejection of each returned promise.
-/

namespace WeeklySummary

/-- A survey question as stored in the database: `id` and `headline`. -/
structure Question where
  id : String
  headline : String
  deriving DecidableEq

/-- A survey response row. The fields are exactly those in the Prisma
select on responses: `id`, `createdAt`, `updatedAt`, `finished`, `data`.
`data` is the JSON map from question id to answer. -/
structure DbResponse where
  id : String
  createdAt : Int
  updatedAt : Int
  finished : Bool
  data : List (String × String)
  deriving DecidableEq

/-- A display row; only `status` is selected. -/
structure DbDisplay where
  status : String
  deriving DecidableEq

/-- A survey as stored in the database. -/
structure DbSurvey where
  id : String
  name : String
  status : String
  questions : List Question
  responses : List DbResponse
  displays : List DbDisplay
  deriving DecidableEq

/-- An environment as stored in the database; `type` distinguishes
`production` from other environments. -/
structure DbEnvironment where
  id : String
  type : String
  surveys : List DbSurvey
  deriving DecidableEq

/-- A user's notification settings: an optional `weeklySummary` map from
product id to an enabled flag. `none` models a missing `weeklySummary`
key on the settings object. -/
structure NotificationSettings where
  weeklySummary : Option (List (String × Bool))
  deriving DecidableEq

/-- A user: `email` and optional `notificationSettings`. -/
structure User where
  email : String
  notificationSettings : Option NotificationSettings
  deriving DecidableEq

/-- A team membership, wrapping the member's user record. -/
structure Membership where
  user : User
  deriving DecidableEq

/-- A team: its memberships. -/
structure Team where
  memberships : List Membership
  deriving DecidableEq

/-- A product as stored in the database. -/
structure DbProduct where
  id : String
  name : String
  environments : List DbEnvironment
  team : Team
  deriving DecidableEq

/-- The survey shape returned by `getProducts`. The Prisma select lists
`name`, `questions`, `status`, `responses`, `displays` — but not `id` —
so the fetched record's `id` is `none` (accessing `survey.id` in the
handler yields `undefined`). -/
structure Survey where
  id : Option String
  name : String
  status : String
  questions : List Question
  responses : List DbResponse
  displays : List DbDisplay
  deriving DecidableEq

/-- The environment shape returned by `getProducts`: `id` and `surveys`
are selected (`type` is used only in the `where` filter). -/
structure Environment where
  id : String
  surveys : List Survey
  deriving DecidableEq

/-- The product shape returned by `getProducts`. The Prisma select lists
`id`, `environments`, `team` — but not `name` — so the fetched record's
`name` is `none` (accessing `product.name` in the handler yields
`undefined`). -/
structure Product where
  id : String
  name : Option String
  environments : List Environment
  team : Team
  deriving DecidableEq

/-- Seven days in milliseconds; `setDate(getDate() - 7)` shifts a date by
this amount. -/
def sevenDaysMs : Int := 7 * 24 * 60 * 60 * 1000

/-- Embedding of `getProducts`: keeps every product, restricts
environments to `type == "production"`, surveys to `status != "draft"`,
responses to `createdAt >= sevenDaysAgo`, and projects each record to the
selected fields. -/
def getProducts (now : Int) (db : List DbProduct) : List Product :=
  let sevenDaysAgo := now - sevenDaysMs
  db.map (fun p =>
    { id := p.id,
      name := none,
      environments :=
        (p.environments.filter (fun e => e.type == "production")).map (fun e =>
          { id := e.id,
            surveys :=
              (e.surveys.filter (fun s => !(s.status == "draft"))).map (fun s =>
                { id := none,
                  name := s.name,
                  status := s.status,
                  questions := s.questions,
                  responses := s.responses.filter (fun r => decide (sevenDaysAgo ≤ r.createdAt)),
                  displays := s.displays }) }),
      team := p.team })

/-- A JavaScript number as it occurs in the insights computation: a
finite value (exact rational), `NaN`, or `Infinity`. -/
inductive JsNum where
  | num (q : ℚ)
  | nan
  | inf
  deriving DecidableEq

/-- JavaScript division of two nonnegative integers: `0/0` is `NaN`,
`a/0` with `a > 0` is `Infinity`, otherwise the exact quotient. -/
def jsDiv (a b : ℕ) : JsNum :=
  if b = 0 then (if a = 0 then JsNum.nan else JsNum.inf)
  else JsNum.num ((a : ℚ) / (b : ℚ))

/-- Multiplication by 100, propagating `NaN` and `Infinity`. -/
def jsMul100 : JsNum → JsNum
  | JsNum.num q => JsNum.num (q * 100)
  | JsNum.nan => JsNum.nan
  | JsNum.inf => JsNum.inf

/-- `Math.round` on a nonnegative value: floor of the value plus one
half; `NaN` and `Infinity` pass through. -/
def jsRound : JsNum → JsNum
  | JsNum.num q => JsNum.num ((⌊q + 1/2⌋ : ℤ) : ℚ)
  | JsNum.nan => JsNum.nan
  | JsNum.inf => JsNum.inf

/-- The per-product `insights` accumulator. -/
structure Insights where
  totalCompletedResponses : ℕ
  totalDisplays : ℕ
  totalResponses : ℕ
  completionRate : JsNum
  numLiveSurvey : ℕ
  deriving DecidableEq

/-- The accumulator's initial value (all counters 0, `completionRate: 0`). -/
def initialInsights : Insights :=
  { totalCompletedResponses := 0, totalDisplays := 0, totalResponses := 0,
    completionRate := JsNum.num 0, numLiveSurvey := 0 }

/-- One iteration of the survey loop's insights updates: bump
`numLiveSurvey` for live surveys, add this survey's finished-response,
display and response counts to the running totals, and recompute
`completionRate` as `Math.round((totalCompletedResponses / totalDisplays) * 100)`
from the running totals. -/
def updateInsights (ins : Insights) (survey : Survey) : Insights :=
  let nls := if survey.status == "live" then ins.numLiveSurvey + 1 else ins.numLiveSurvey
  let tcr := ins.totalCompletedResponses + (survey.responses.filter (fun r => r.finished)).length
  let td := ins.totalDisplays + survey.displays.length
  let tr := ins.totalResponses + survey.responses.length
  { totalCompletedResponses := tcr,
    totalDisplays := td,
    totalResponses := tr,
    completionRate := jsRound (jsMul100 (jsDiv tcr td)),
    numLiveSurvey := nls }

/-- The insights after folding the survey loop over a survey list. -/
def productInsights (surveys : List Survey) : Insights :=
  surveys.foldl updateInsights initialInsights

/-- One `surveyData.responses` entry: a question headline paired with an
answer (`none` models JavaScript `null`). -/
structure QA where
  headline : String
  answer : Option String
  deriving DecidableEq

/-- The per-survey record pushed onto `surveys`. -/
structure SurveyData where
  id : Option String
  name : String
  responses : List QA
  deriving DecidableEq

/-- Property lookup `response.data[question.id]` on the JSON data map. -/
def dataLookup (d : List (String × String)) (qid : String) : Option String :=
  (d.find? (fun p => p.1 == qid)).map (fun p => p.2)

/-- `value || null`: the JavaScript or-with-null sends every falsy value
to `null`, which for a string-valued map means both a missing key and the
empty string. -/
def jsOrNull : Option String → Option String
  | some s => if s == "" then none else some s
  | none => none

/-- Embedding of the response/question loops that build one survey's
`surveyData`: for each response, for each question, push the headline and
`response.data[question.id] || null`. -/
def buildSurveyData (survey : Survey) : SurveyData :=
  { id := survey.id,
    name := survey.name,
    responses :=
      survey.responses.flatMap (fun response =>
        survey.questions.map (fun question =>
          { headline := question.headline,
            answer := jsOrNull (dataLookup response.data question.id) })) }

/-- The recipient filter on one membership:
`member.user.notificationSettings?.weeklySummary && member.user.notificationSettings.weeklySummary[product.id]`.
A missing settings object, missing `weeklySummary` map, or absent product
key is falsy. -/
def weeklySummaryEnabled (productId : String) (member : Membership) : Bool :=
  match member.user.notificationSettings with
  | none => false
  | some settings =>
    match settings.weeklySummary with
    | none => false
    | some ws =>
      match ws.find? (fun p => p.1 == productId) with
      | some p => p.2
      | none => false

/-- `teamMembersWithNotificationEnabled`: the memberships that pass the
recipient filter for this product. -/
def enabledMembers (product : Product) : List Membership :=
  product.team.memberships.filter (weeklySummaryEnabled product.id)

/-- The `NotificationResponse` payload of the weekly summary email.
`productName` is `Option` because the handler reads `product.name`, which
`getProducts` does not select. -/
structure NotificationResponse where
  environmentId : String
  currentDate : Int
  lastWeekDate : Int
  productName : Option String
  surveys : List SurveyData
  insights : Insights
  deriving DecidableEq

/-- The first argument passed to `sendNoLiveSurveyNotificationEmail`:
either a single member's email address or the whole membership list. -/
inductive Recipient where
  | single (email : String)
  | group (members : List Membership)
  deriving DecidableEq

/-- An issued email-send operation. -/
inductive EmailSend where
  | noLiveSurvey (dest : Recipient) (product : Product)
  | weeklySummary (dest : List Membership) (payload : NotificationResponse)
  deriving DecidableEq

/-- A thrown JavaScript error: a `TypeError` from reading a property of
`undefined`, or a rejected send promise. -/
inductive JsError where
  | typeError (msg : String)
  | rejected (msg : String)
  deriving DecidableEq

/-- The body of the product loop: filter recipients and skip the product
when none are enabled; otherwise read `environments[0]` (a `TypeError`
when the list is empty), build the survey records and insights, and push
either the per-recipient plus group "no responses" sends or the single
weekly summary send. -/
def processProduct (now : Int) (product : Product) : Except JsError (List EmailSend) :=
  let teamMembersWithNotificationEnabled := enabledMembers product
  if teamMembersWithNotificationEnabled.length = 0 then
    Except.ok []
  else
    match product.environments.head? with
    | none => Except.error (JsError.typeError "cannot read properties of undefined")
    | some environment =>
      let surveys := environment.surveys.map buildSurveyData
      let insights := productInsights environment.surveys
      if insights.totalCompletedResponses = 0 then
        Except.ok
          ((teamMembersWithNotificationEnabled.map (fun m =>
              EmailSend.noLiveSurvey (Recipient.single m.user.email) product)) ++
            [EmailSend.noLiveSurvey
              (Recipient.group teamMembersWithNotificationEnabled) product])
      else
        Except.ok
          [EmailSend.weeklySummary teamMembersWithNotificationEnabled
            { environmentId := environment.id,
              currentDate := now,
              lastWeekDate := now - sevenDaysMs,
              productName := product.name,
              surveys := surveys,
              insights := insights }]

/-- The product loop: collect the sends pushed before any throw, together
with the first thrown error if one occurs. -/
def runProducts (now : Int) : List Product → List EmailSend × Option JsError
  | [] => ([], none)
  | p :: ps =>
    match processProduct now p with
    | Except.error e => ([], some e)
    | Except.ok es =>
      let rest := runProducts now ps
      (es ++ rest.1, rest.2)

/-- `Promise.all` over settled send outcomes: succeeds when every send
resolved, otherwise rejects with the first rejection. -/
def promiseAll : List (Except JsError Unit) → Except JsError Unit
  | [] => Except.ok ()
  | Except.ok _ :: rest => promiseAll rest
  | Except.error e :: _ => Except.error e

/-- The two response shapes the handler can return. -/
inductive ApiResponse where
  | notAuthenticated
  | success
  deriving DecidableEq

/-- How one run ends: an HTTP response, or an unhandled throw. -/
inductive JobOutcome where
  | response (r : ApiResponse)
  | thrown (e : JsError)
  deriving DecidableEq

/-- Observable side effects of one run: how many database queries were
made and which email sends were issued. -/
structure JobTrace where
  dbQueries : ℕ
  emailsSent : List EmailSend
  deriving DecidableEq

/-- How an authenticated run ends, given the product loop's result: a
mid-loop throw propagates; otherwise all issued sends are jointly awaited
and the run succeeds only when every send resolved. -/
def jobOutcome (run : List EmailSend × Option JsError)
    (sendResult : EmailSend → Except JsError Unit) : JobOutcome :=
  match run.2 with
  | some e => JobOutcome.thrown e
  | none =>
    match promiseAll (run.1.map sendResult) with
    | Except.error e => JobOutcome.thrown e
    | Except.ok _ => JobOutcome.response ApiResponse.success

/-- Embedding of the `POST` handler. `xApiKey` is the `x-api-key` header
(`none` when absent), `cronSecret` the configured secret, `db` the
database contents, `sendResult` the eventual outcome of each issued send.
On an authentication mismatch it returns the unauthenticated response
having made no query and issued no send; otherwise it fetches the
products, runs the product loop (issued sends stay issued even when the
loop throws), and jointly awaits all sends before returning success. -/
def POST (xApiKey : Option String) (cronSecret : String) (now : Int)
    (db : List DbProduct) (sendResult : EmailSend → Except JsError Unit) :
    JobTrace × JobOutcome :=
  if xApiKey ≠ some cronSecret then
    ({ dbQueries := 0, emailsSent := [] }, JobOutcome.response ApiResponse.notAuthenticated)
  else
    ({ dbQueries := 1, emailsSent := (runProducts now (getProducts now db)).1 },
      jobOutcome (runProducts now (getProducts now db)) sendResult)

/-- Cumulative finished-response count over a survey prefix. -/
def cumCompleted (svs : List Survey) : ℕ :=
  (svs.map (fun s => (s.responses.filter (fun r => r.finished)).length)).sum

/-- Cumulative display count over a survey prefix. -/
def cumDisplays (svs : List Survey) : ℕ :=
  (svs.map (fun s => s.displays.length)).sum

/-- Cumulative response count over a survey prefix. -/
def cumResponses (svs : List Survey) : ℕ :=
  (svs.map (fun s => s.responses.length)).sum

/-- Number of live surveys in a survey prefix. -/
def cumLive (svs : List Survey) : ℕ :=
  (svs.filter (fun s => s.status == "live")).length

/-! ### Concrete sample data used by witnesses and counterexamples -/

/-- A membership whose user has weekly summary enabled for product `pid`. -/
def memberOn (pid : String) : Membership :=
  { user := { email := "alice@example.com",
              notificationSettings := some { weeklySummary := some [(pid, true)] } } }

/-- A membership whose user has no notification settings at all. -/
def memberOff : Membership :=
  { user := { email := "bob@example.com", notificationSettings := none } }

/-- A fetched product with one enabled recipient, one production
environment and no surveys (hence zero completed responses). -/
def productNoResponses : Product :=
  { id := "p1", name := none,
    environments := [{ id := "env1", surveys := [] }],
    team := { memberships := [memberOn "p1"] } }

/-- The database row whose fetched image is `productNoResponses`. -/
def dbProductNoResp : DbProduct :=
  { id := "p1", name := "Product One",
    environments := [{ id := "env1", type := "production", surveys := [] }],
    team := { memberships := [memberOn "p1"] } }

/-- A send-outcome function where every send resolves. -/
def sendOk : EmailSend → Except JsError Unit := fun _ => Except.ok ()

/-- A send-outcome function where every send rejects. -/
def failAll : EmailSend → Except JsError Unit :=
  fun _ => Except.error (JsError.rejected "smtp down")

/-! ### C1: the zero-responses branch -/

/-- C1 (code bug evaluation): for a product with exactly one enabled
recipient and zero completed responses, the loop issues TWO
`sendNoLiveSurveyNotificationEmail` operations — one addressed to the
individual recipient's email and one extra send passing the whole
membership list — where the claim requires exactly one send per
recipient and nothing else. -/
theorem noResponses_extra_group_send :
    (enabledMembers productNoResponses).map (fun m => m.user.email) = ["alice@example.com"] ∧
    processProduct 0 productNoResponses =
      Except.ok
        [EmailSend.noLiveSurvey (Recipient.single "alice@example.com") productNoResponses,
          EmailSend.noLiveSurvey (Recipient.group [memberOn "p1"]) productNoResponses] :=
  ⟨rfl, rfl⟩

/-! ### C8: authentication short-circuit -/

/-- C8: a request whose `x-api-key` header does not equal the configured
secret yields the unauthenticated response with zero database queries and
zero email sends. -/
theorem unauthenticated_no_processing (xApiKey : Option String) (cronSecret : String)
    (now : Int) (db : List DbProduct) (sendResult : EmailSend → Except JsError Unit)
    (h : xApiKey ≠ some cronSecret) :
    POST xApiKey cronSecret now db sendResult =
      ({ dbQueries := 0, emailsSent := [] },
        JobOutcome.response ApiResponse.notAuthenticated) := by
  unfold POST
  rw [if_pos h]

/-- Witness for C8 at a concrete request with a missing header. -/
theorem unauthenticated_no_processing_witness :
    ((none : Option String) ≠ some "cron-secret") ∧
    POST none "cron-secret" 0 [dbProductNoResp] sendOk =
      ({ dbQueries := 0, emailsSent := [] },
        JobOutcome.response ApiResponse.notAuthenticated) :=
  ⟨by decide, unauthenticated_no_processing none "cron-secret" 0 [dbProductNoResp] sendOk
    (by decide)⟩

/-! ### C5: products with no enabled recipient are skipped -/

/-- C5: a product with no enabled recipients contributes no email send
and the product loop's outputs are exactly as if the product were absent
from the fetched list. -/
theorem skipped_product_invisible (now : Int) (p : Product)
    (h : enabledMembers p = []) :
    processProduct now p = Except.ok [] ∧
    ∀ l1 l2 : List Product, runProducts now (l1 ++ p :: l2) = runProducts now (l1 ++ l2) := by
  have hp : processProduct now p = Except.ok [] := by
    simp [processProduct, h]
  refine ⟨hp, ?_⟩
  intro l1 l2
  induction l1 with
  | nil =>
    simp [runProducts, hp]
  | cons q l1 ih =>
    simp only [List.cons_append]
    unfold runProducts
    cases hq : processProduct now q with
    | error e => simp
    | ok es => simp [ih]

/-- A fetched product whose only member has notifications disabled. -/
def productDisabled : Product :=
  { id := "p9", name := none, environments := [],
    team := { memberships := [memberOff] } }

/-- Witness for C5 at a concrete product with a disabled member. -/
theorem skipped_product_invisible_witness :
    enabledMembers productDisabled = [] ∧
    (processProduct 0 productDisabled = Except.ok [] ∧
      ∀ l1 l2 : List Product,
        runProducts 0 (l1 ++ productDisabled :: l2) = runProducts 0 (l1 ++ l2)) :=
  ⟨by decide, skipped_product_invisible 0 productDisabled (by decide)⟩

/-! ### C7: the recipient filter -/

/-- The recipient filter succeeds exactly when the settings chain is
fully present and the product's flag is `true`. -/
theorem weeklySummaryEnabled_iff (pid : String) (m : Membership) :
    weeklySummaryEnabled pid m = true ↔
      ∃ settings ws flag, m.user.notificationSettings = some settings ∧
        settings.weeklySummary = some ws ∧
        ws.find? (fun p => p.1 == pid) = some flag ∧ flag.2 = true := by
  unfold weeklySummaryEnabled
  cases hs : m.user.notificationSettings with
  | none => simp [hs]
  | some settings =>
    cases hw : settings.weeklySummary with
    | none => simp [hs, hw]
    | some ws =>
      cases hf : ws.find? (fun p => p.1 == pid) with
      | none => simp [hs, hw, hf]
      | some flag =>
        obtain ⟨a, b⟩ := flag
        simp [hs, hw, hf]

/-- C7: a team member is selected as a recipient for a product iff they
are on the product's team and their notification settings exist, contain
a weekly summary map, and that map holds flag `true` under the product's
id; any missing link in that chain means not selected. -/
theorem recipient_iff_enabled_flag (p : Product) (m : Membership) :
    m ∈ enabledMembers p ↔
      (m ∈ p.team.memberships ∧
        ∃ settings ws flag, m.user.notificationSettings = some settings ∧
          settings.weeklySummary = some ws ∧
          ws.find? (fun q => q.1 == p.id) = some flag ∧ flag.2 = true) := by
  unfold enabledMembers
  rw [List.mem_filter, weeklySummaryEnabled_iff]

/-! ### C9: joint await of all sends -/

/-- If any element of the settled-outcome list is a rejection, the joint
`Promise.all` is a rejection. -/
theorem promiseAll_error_of_mem (l : List (Except JsError Unit)) (err : JsError)
    (h : Except.error err ∈ l) : ∃ e2, promiseAll l = Except.error e2 := by
  induction l with
  | nil => simp at h
  | cons x rest ih =>
    cases x with
    | ok u =>
      have hrest : Except.error err ∈ rest := by
        rcases List.mem_cons.mp h with h1 | h1
        · exact absurd h1 (by simp)
        · exact h1
      rcases ih hrest with ⟨e2, he⟩
      exact ⟨e2, by simpa [promiseAll] using he⟩
    | error e => exact ⟨e, by simp [promiseAll]⟩

/-- If a listed send rejects, the joint await cannot produce success. -/
theorem jobOutcome_ne_success (run : List EmailSend × Option JsError)
    (sendResult : EmailSend → Except JsError Unit) (e : EmailSend) (err : JsError)
    (hmem : e ∈ run.1) (hrej : sendResult e = Except.error err) :
    jobOutcome run sendResult ≠ JobOutcome.response ApiResponse.success := by
  unfold jobOutcome
  cases h2 : run.2 with
  | some e2 => simp
  | none =>
    cases hpa : promiseAll (run.1.map sendResult) with
    | error e2 => simp
    | ok u =>
      have hmape : Except.error err ∈ run.1.map sendResult :=
        List.mem_map.mpr ⟨e, hmem, hrej⟩
      rcases promiseAll_error_of_mem _ err hmape with ⟨e2, he⟩
      rw [hpa] at he
      cases he

/-- C9: every issued send is awaited in the single joint wait, so if any
one send rejects, the handler does not return the success response (the
rejection propagates; failures are not isolated per product or per
recipient). -/
theorem rejected_send_aborts (xApiKey : Option String) (cronSecret : String) (now : Int)
    (db : List DbProduct) (sendResult : EmailSend → Except JsError Unit)
    (e : EmailSend) (err : JsError)
    (hmem : e ∈ (POST xApiKey cronSecret now db sendResult).1.emailsSent)
    (hrej : sendResult e = Except.error err) :
    (POST xApiKey cronSecret now db sendResult).2 ≠ JobOutcome.response ApiResponse.success := by
  unfold POST at hmem ⊢
  rcases eq_or_ne xApiKey (some cronSecret) with hk | hk
  · rw [hk, if_neg (by simp)] at hmem ⊢
    exact jobOutcome_ne_success _ sendResult e err hmem hrej
  · rw [if_pos hk] at hmem
    simp at hmem

/-- Witness for C9: with every send rejecting, a concrete run that issues
a send does not return success. -/
theorem rejected_send_aborts_witness :
    (EmailSend.noLiveSurvey (Recipient.single "alice@example.com") productNoResponses ∈
      (POST (some "cs") "cs" 0 [dbProductNoResp] failAll).1.emailsSent) ∧
    failAll (EmailSend.noLiveSurvey (Recipient.single "alice@example.com") productNoResponses) =
      Except.error (JsError.rejected "smtp down") ∧
    (POST (some "cs") "cs" 0 [dbProductNoResp] failAll).2 ≠
      JobOutcome.response ApiResponse.success :=
  ⟨by decide, rfl,
    rejected_send_aborts (some "cs") "cs" 0 [dbProductNoResp] failAll
      (EmailSend.noLiveSurvey (Recipient.single "alice@example.com") productNoResponses)
      (JsError.rejected "smtp down") (by decide) rfl⟩

/-! ### C10: the unconditional `environments[0]` read -/

/-- If the product loop finished without throwing, every product was
processed successfully. -/
theorem runProducts_ok_processed (now : Int) (ps : List Product)
    (h : (runProducts now ps).2 = none) :
    ∀ p ∈ ps, ∃ es2, processProduct now p = Except.ok es2 := by
  induction ps with
  | nil => intro p hp; cases hp
  | cons q rest ih =>
    intro p hp
    unfold runProducts at h
    cases hq : processProduct now q with
    | error e =>
      rw [hq] at h
      simp at h
    | ok es0 =>
      rw [hq] at h
      simp only at h
      rcases List.mem_cons.mp hp with rfl | hp2
      · exact ⟨es0, hq⟩
      · exact ih h p hp2

/-- A successfully processed product with an enabled recipient must have
had a production environment to read at index 0. -/
theorem processProduct_ok_environments (now : Int) (p : Product) (es : List EmailSend)
    (h : processProduct now p = Except.ok es) (hm : enabledMembers p ≠ []) :
    p.environments ≠ [] := by
  intro henv
  unfold processProduct at h
  rw [if_neg (by simpa using hm)] at h
  rw [henv] at h
  simp at h

/-- C10: whenever the run completes with the success response, every
fetched product that has at least one enabled recipient has a non-empty
production-environments list (the handler reads `environments[0]`
unconditionally for such products, throwing otherwise). -/
theorem success_requires_production_environment (xApiKey : Option String) (cronSecret : String)
    (now : Int) (db : List DbProduct) (sendResult : EmailSend → Except JsError Unit)
    (hs : (POST xApiKey cronSecret now db sendResult).2 =
      JobOutcome.response ApiResponse.success) :
    ∀ p ∈ getProducts now db, enabledMembers p ≠ [] → p.environments ≠ [] := by
  unfold POST at hs
  rcases eq_or_ne xApiKey (some cronSecret) with hk | hk
  · rw [hk, if_neg (by simp)] at hs
    have hnone : (runProducts now (getProducts now db)).2 = none := by
      unfold jobOutcome at hs
      cases h2 : (runProducts now (getProducts now db)).2 with
      | some e => rw [h2] at hs; simp at hs
      | none => rfl
    intro p hp hm
    rcases runProducts_ok_processed now (getProducts now db) hnone p hp with ⟨es2, hes⟩
    exact processProduct_ok_environments now p es2 hes hm
  · rw [if_pos hk] at hs
    simp at hs

/-- Witness for C10: a concrete successful run, whose fetched product
with an enabled recipient indeed has a production environment. -/
theorem success_requires_production_environment_witness :
    (POST (some "cs") "cs" 0 [dbProductNoResp] sendOk).2 =
      JobOutcome.response ApiResponse.success ∧
    ∀ p ∈ getProducts 0 [dbProductNoResp], enabledMembers p ≠ [] → p.environments ≠ [] :=
  ⟨by decide,
    success_requires_production_environment (some "cs") "cs" 0 [dbProductNoResp] sendOk
      (by decide)⟩

/-! ### C2: the cumulative completion rate -/

/-- Closed form of the insights fold from an arbitrary accumulator: the
counters add the per-survey sums onto the start values, and after at
least one survey the completion rate is recomputed from the cumulative
totals. -/
theorem foldl_updateInsights (svs : List Survey) (ins : Insights) :
    svs.foldl updateInsights ins =
      { totalCompletedResponses := ins.totalCompletedResponses + cumCompleted svs,
        totalDisplays := ins.totalDisplays + cumDisplays svs,
        totalResponses := ins.totalResponses + cumResponses svs,
        completionRate :=
          if svs = [] then ins.completionRate
          else jsRound (jsMul100 (jsDiv (ins.totalCompletedResponses + cumCompleted svs)
            (ins.totalDisplays + cumDisplays svs))),
        numLiveSurvey := ins.numLiveSurvey + cumLive svs } := by
  induction svs generalizing ins with
  | nil =>
    simp [cumCompleted, cumDisplays, cumResponses, cumLive]
  | cons s rest ih =>
    rw [List.foldl_cons, ih]
    have hcl : cumLive (s :: rest) = (if s.status == "live" then 1 else 0) + cumLive rest := by
      by_cases hlive : s.status == "live" <;>
        simp [cumLive, List.filter_cons, hlive, Nat.add_comm]
    rcases eq_or_ne rest [] with hr | hr
    · subst hr
      by_cases hlive : s.status == "live" <;>
        simp [updateInsights, hcl, hlive, cumCompleted, cumDisplays, cumResponses, cumLive]
    · by_cases hlive : s.status == "live" <;>
        simp [updateInsights, hcl, hlive, hr, cumCompleted, cumDisplays, cumResponses,
          Nat.add_assoc]

/-- The insights of a non-empty survey list: each counter is the
corresponding sum, and the completion rate is recomputed from the totals. -/
theorem productInsights_eq (svs : List Survey) (h : svs ≠ []) :
    productInsights svs =
      { totalCompletedResponses := cumCompleted svs,
        totalDisplays := cumDisplays svs,
        totalResponses := cumResponses svs,
        completionRate := jsRound (jsMul100 (jsDiv (cumCompleted svs) (cumDisplays svs))),
        numLiveSurvey := cumLive svs } := by
  unfold productInsights
  rw [foldl_updateInsights]
  simp [initialInsights, h]

/-- C2: after folding in survey `i ≥ 1`, the completion rate equals the
rounding of 100 times the cumulative finished-response count over the
cumulative display count (recomputed from running totals), and when the
cumulative display count is 0 it is not a finite number (hence not 0). -/
theorem completionRate_cumulative (svs : List Survey) (i : ℕ)
    (h1 : 1 ≤ i) (h2 : i ≤ svs.length) :
    (cumDisplays (svs.take i) ≠ 0 →
        (productInsights (svs.take i)).completionRate =
          JsNum.num (((⌊(100 : ℚ) * (cumCompleted (svs.take i) : ℚ) /
            (cumDisplays (svs.take i) : ℚ) + 1 / 2⌋ : ℤ) : ℚ))) ∧
      (cumDisplays (svs.take i) = 0 →
        ∀ q : ℚ, (productInsights (svs.take i)).completionRate ≠ JsNum.num q) := by
  have hne : svs.take i ≠ [] := by
    rw [Ne, List.take_eq_nil_iff]
    push_neg
    refine ⟨by omega, ?_⟩
    intro h
    subst h
    simp at h2
    omega
  rw [productInsights_eq _ hne]
  constructor
  · intro hd
    have heq : (cumCompleted (svs.take i) : ℚ) / (cumDisplays (svs.take i) : ℚ) * 100 =
        (100 : ℚ) * (cumCompleted (svs.take i) : ℚ) / (cumDisplays (svs.take i) : ℚ) := by
      ring
    simp [jsDiv, hd, jsMul100, jsRound, heq]
  · intro hd q
    by_cases hc : cumCompleted (svs.take i) = 0 <;>
      simp [jsDiv, hd, hc, jsMul100, jsRound]

/-- A finished response created at time 0 with an empty data map. -/
def finishedResponse : DbResponse :=
  { id := "r", createdAt := 0, updatedAt := 0, finished := true, data := [] }

/-- A display row with a concrete status. -/
def displayRec : DbDisplay := { status := "seen" }

/-- A fetched survey with 4 finished responses and 10 displays. -/
def surveyA : Survey :=
  { id := none, name := "A", status := "live", questions := [],
    responses := List.replicate 4 finishedResponse,
    displays := List.replicate 10 displayRec }

/-- A fetched survey with 6 finished responses and 10 displays. -/
def surveyB : Survey :=
  { id := none, name := "B", status := "live", questions := [],
    responses := List.replicate 6 finishedResponse,
    displays := List.replicate 10 displayRec }

/-- Witness for C2 on the spec's example: after both surveys (4/10 plus
6/10), the rate is recomputed from the cumulative totals 10/20. -/
theorem completionRate_cumulative_witness :
    (1 ≤ 2 ∧ 2 ≤ [surveyA, surveyB].length) ∧
    ((cumDisplays ([surveyA, surveyB].take 2) ≠ 0 →
        (productInsights ([surveyA, surveyB].take 2)).completionRate =
          JsNum.num (((⌊(100 : ℚ) * (cumCompleted ([surveyA, surveyB].take 2) : ℚ) /
            (cumDisplays ([surveyA, surveyB].take 2) : ℚ) + 1 / 2⌋ : ℤ) : ℚ))) ∧
      (cumDisplays ([surveyA, surveyB].take 2) = 0 →
        ∀ q : ℚ, (productInsights ([surveyA, surveyB].take 2)).completionRate ≠ JsNum.num q)) :=
  ⟨⟨by decide, by decide⟩, completionRate_cumulative [surveyA, surveyB] 2 (by decide) (by decide)⟩

/-! ### C6: the positive branch sends exactly one weekly summary email -/

/-- C6: a product with at least one enabled recipient and a nonzero
cumulative completed-response count produces exactly one send — a weekly
summary addressed to the full enabled-recipient list — and no
"no responses" send. -/
theorem weekly_summary_sent_once (now : Int) (p : Product) (env : Environment)
    (rest : List Environment) (henv : p.environments = env :: rest)
    (hm : enabledMembers p ≠ [])
    (hc : (productInsights env.surveys).totalCompletedResponses ≠ 0) :
    ∃ payload, processProduct now p =
      Except.ok [EmailSend.weeklySummary (enabledMembers p) payload] := by
  refine ⟨{ environmentId := env.id, currentDate := now, lastWeekDate := now - sevenDaysMs,
            productName := p.name, surveys := env.surveys.map buildSurveyData,
            insights := productInsights env.surveys }, ?_⟩
  simp only [processProduct, henv, List.head?_cons]
  rw [if_neg (by simpa using hm), if_neg hc]

/-- The single question of the sample survey. -/
def questionQ1 : Question := { id := "q1", headline := "How was it?" }

/-- A finished response answering `q1`. -/
def answeredResponse : DbResponse :=
  { id := "r1", createdAt := 0, updatedAt := 0, finished := true, data := [("q1", "great")] }

/-- A fetched live survey with one answered finished response. -/
def liveSurvey : Survey :=
  { id := none, name := "S", status := "live", questions := [questionQ1],
    responses := [answeredResponse], displays := [displayRec] }

/-- A fetched environment containing `liveSurvey`. -/
def envWithResponses : Environment := { id := "env-prod", surveys := [liveSurvey] }

/-- A fetched product with one enabled and one disabled member and a
completed response. -/
def productWithResponses : Product :=
  { id := "p2", name := none, environments := [envWithResponses],
    team := { memberships := [memberOn "p2", memberOff] } }

/-- Witness for C6 at a concrete product with one completed response. -/
theorem weekly_summary_sent_once_witness :
    productWithResponses.environments = envWithResponses :: [] ∧
    enabledMembers productWithResponses ≠ [] ∧
    (productInsights envWithResponses.surveys).totalCompletedResponses ≠ 0 ∧
    ∃ payload, processProduct 0 productWithResponses =
      Except.ok [EmailSend.weeklySummary (enabledMembers productWithResponses) payload] :=
  ⟨rfl, by decide, by decide,
    weekly_summary_sent_once 0 productWithResponses envWithResponses [] rfl
      (by decide) (by decide)⟩

/-! ### C3: the weekly summary payload -/

/-- The payloads of the weekly summary sends in an issued-send list. -/
def sentPayloads : List EmailSend → List NotificationResponse
  | [] => []
  | EmailSend.weeklySummary _ payload :: rest => payload :: sentPayloads rest
  | EmailSend.noLiveSurvey _ _ :: rest => sentPayloads rest

/-- The database row for a named product with a development and a
production environment, an enabled and a disabled member, and one
answered, finished response. -/
def dbProductNamed : DbProduct :=
  { id := "p2", name := "My Product",
    environments :=
      [{ id := "env-dev", type := "development", surveys := [] },
       { id := "env-prod", type := "production",
         surveys :=
           [{ id := "s1", name := "S", status := "live", questions := [questionQ1],
              responses := [answeredResponse], displays := [displayRec] }] }],
    team := { memberships := [memberOn "p2", memberOff] } }

/-- C3 (code bug evaluation): for a concrete run over `dbProductNamed`,
the single weekly summary payload carries the first production
environment's id, the current timestamp, the timestamp seven days prior,
the flattened survey data and the insights — but its `productName` is
`undefined` (`none`), although the product's name in the database is
`"My Product"`: the Prisma select in `getProducts` does not select
`name`, contradicting the declared payload type `productName: string`. -/
theorem summary_payload_missing_product_name :
    dbProductNamed.name = "My Product" ∧
    (runProducts 0 (getProducts 0 [dbProductNamed])).2 = none ∧
    (sentPayloads (runProducts 0 (getProducts 0 [dbProductNamed])).1).map
        (fun payload => (payload.environmentId, payload.currentDate, payload.lastWeekDate,
          payload.productName, payload.surveys)) =
      [("env-prod", (0 : Int), -sevenDaysMs, (none : Option String),
        [{ id := none, name := "S",
           responses := [{ headline := "How was it?", answer := some "great" }] }])] ∧
    (sentPayloads (runProducts 0 (getProducts 0 [dbProductNamed])).1).map
        (fun payload => (payload.insights.totalCompletedResponses,
          payload.insights.totalDisplays, payload.insights.totalResponses,
          payload.insights.numLiveSurvey)) =
      [(1, 1, 1, 1)] :=
  ⟨rfl, by decide, by decide, by decide⟩

/-! ### C4: the per-survey headline times response cross-product -/

/-- A finished response whose answer to `q1` is present but empty. -/
def emptyAnswerResponse : DbResponse :=
  { id := "r2", createdAt := 0, updatedAt := 0, finished := true, data := [("q1", "")] }

/-- A fetched survey whose one response answers `q1` with the empty
string. -/
def emptyAnswerSurvey : Survey :=
  { id := none, name := "E", status := "live", questions := [questionQ1],
    responses := [emptyAnswerResponse], displays := [] }

/-- C4 counterexample: the answer value for `q1` is present in the
response's data map (it is the empty string), yet the built entry's
answer is null — so the answer is not null "exactly when the value is
missing": `value || null` also nulls present falsy values. -/
theorem answer_null_despite_present_value :
    dataLookup emptyAnswerResponse.data questionQ1.id = some "" ∧
    (buildSurveyData emptyAnswerSurvey).responses =
      [{ headline := "How was it?", answer := none }] :=
  ⟨rfl, rfl⟩

/-- The answer rule the code actually implements: null when the data-map
value is missing or is the empty string (falsy), the value otherwise. -/
def answerOrNull (v : Option String) : Option String :=
  match v with
  | some a => if a = "" then none else some a
  | none => none

/-- The or-with-null of the source agrees with the missing-or-empty rule. -/
theorem jsOrNull_eq (o : Option String) : jsOrNull o = answerOrNull o := by
  cases o with
  | none => rfl
  | some a =>
    by_cases h : a = "" <;> simp [jsOrNull, answerOrNull, h]

/-- Length of a flat-mapped fixed-size block list: the full cross-product
size. -/
theorem length_flatMap_map {α β γ : Type} (rs : List α) (qs : List β) (g : α → β → γ) :
    (rs.flatMap (fun r => qs.map (g r))).length = rs.length * qs.length := by
  induction rs with
  | nil => simp
  | cons r rest ih =>
    rw [List.flatMap_cons, List.length_append, List.length_map, ih, List.length_cons,
      Nat.succ_mul]
    omega

/-- Entry `i * |qs| + j` of a flat-mapped block list is `g` applied to
the `i`-th outer and `j`-th inner element. -/
theorem getElem?_flatMap_map {α β γ : Type} (rs : List α) (qs : List β) (g : α → β → γ)
    (i j : ℕ) (hi : i < rs.length) (hj : j < qs.length) :
    (rs.flatMap (fun r => qs.map (g r)))[i * qs.length + j]? =
      some (g (rs.get ⟨i, hi⟩) (qs.get ⟨j, hj⟩)) := by
  induction rs generalizing i with
  | nil => simp at hi
  | cons r rest ih =>
    cases i with
    | zero =>
      rw [List.flatMap_cons]
      have hj2 : 0 * qs.length + j < (qs.map (g r)).length := by simpa using hj
      rw [List.getElem?_append_left hj2]
      simp [List.getElem?_eq_getElem, hj]
    | succ i2 =>
      rw [List.flatMap_cons]
      have hlen : (qs.map (g r)).length ≤ (i2 + 1) * qs.length + j := by
        rw [List.length_map, Nat.succ_mul]
        omega
      rw [List.getElem?_append_right hlen]
      have hidx : (i2 + 1) * qs.length + j - (qs.map (g r)).length = i2 * qs.length + j := by
        rw [List.length_map, Nat.succ_mul]
        omega
      rw [hidx]
      exact ih i2 (by simpa using hi)

/-- C4 (amended): the per-survey record holds one entry per
(response, question) pair — a cross-product of size
`|responses| * |questions|`, response-major in iteration order — whose
headline is the question's headline and whose answer is the response's
data-map value for the question id, nulled when missing or empty
(falsy), not only when missing. -/
theorem surveyData_cross_product (s : Survey) (i j : ℕ)
    (hi : i < s.responses.length) (hj : j < s.questions.length) :
    (buildSurveyData s).responses.length = s.responses.length * s.questions.length ∧
    (buildSurveyData s).responses[i * s.questions.length + j]? =
      some { headline := (s.questions.get ⟨j, hj⟩).headline,
             answer := answerOrNull
               (dataLookup (s.responses.get ⟨i, hi⟩).data (s.questions.get ⟨j, hj⟩).id) } := by
  simp only [buildSurveyData]
  constructor
  · exact length_flatMap_map s.responses s.questions
      (fun response question =>
        ({ headline := question.headline,
           answer := jsOrNull (dataLookup response.data question.id) } : QA))
  · rw [getElem?_flatMap_map s.responses s.questions
      (fun response question =>
        ({ headline := question.headline,
           answer := jsOrNull (dataLookup response.data question.id) } : QA)) i j hi hj]
    rw [jsOrNull_eq]

/-- Witness for C4 (amended) at entry (0, 0) of the sample survey. -/
theorem surveyData_cross_product_witness :
    (0 < liveSurvey.responses.length ∧ 0 < liveSurvey.questions.length) ∧
    ((buildSurveyData liveSurvey).responses.length =
        liveSurvey.responses.length * liveSurvey.questions.length ∧
      (buildSurveyData liveSurvey).responses[0 * liveSurvey.questions.length + 0]? =
        some { headline := (liveSurvey.questions.get ⟨0, by decide⟩).headline,
               answer := answerOrNull
                 (dataLookup (liveSurvey.responses.get ⟨0, by decide⟩).data
                   (liveSurvey.questions.get ⟨0, by decide⟩).id) }) :=
  ⟨⟨by decide, by decide⟩, surveyData_cross_product liveSurvey 0 0 (by decide) (by decide)⟩

end WeeklySummary
